import Mathlib

/-!
Verification development for the cloud-cli environment-discovery and
configuration-reconciliation subsystem.

The Rust sources under src/config_loader (config_parser.rs, config_persister.rs,
process_detector.rs, regex_utils.rs, mod.rs) and src/config.rs are shallowly
embedded below.  External effects (running shell commands, probing process
liveness, reading role config files from disk, the current wall-clock time) are
passed in explicitly as oracle values/functions; filesystem paths are modelled
as plain strings; `u16`/`u32`/`u64` parsing is modelled as `Nat` parsing with
the corresponding exclusive bound; chrono timestamps are modelled as abstract
`Nat` values whose `to_rfc3339`/`parse_from_rfc3339` round-trip is the
identity.
-/

namespace CloudCli

/-- Filesystem paths (Rust `PathBuf`) are modelled as plain strings. -/
abbrev Path := String

/-- Models `PathBuf::join` for the relative components used by the sources. -/
def pathJoin (p : Path) (s : String) : Path := p ++ "/" ++ s

/-- Environment enum from config_loader.  The variant `Mixed` ("FE + BE") is
the one used by config_persister.rs; mod.rs itself only matches FE/BE/Unknown. -/
inductive Environment
  | FE
  | BE
  | Mixed
  | Unknown
deriving DecidableEq, Repr

/-- MySQL credential record persisted alongside the config (user + encrypted
password), from tools/mysql/credentials.rs. -/
structure MySQLConfig where
  user : String
  password : String
deriving DecidableEq, Repr

/-- The long-lived configuration record `DorisConfig` from config_loader/mod.rs,
extended with the `mysql` field used by config_persister.rs.  `last_detected`
is an abstract timestamp. -/
structure DorisConfig where
  environment : Environment
  install_dir : Path
  conf_dir : Path
  log_dir : Path
  jdk_path : Path
  output_dir : Path
  timeout_seconds : Nat
  no_progress_animation : Bool
  process_pid : Option Nat
  process_command : Option String
  last_detected : Option Nat
  be_port : Option Nat
  brpc_port : Option Nat
  heartbeat_service_port : Option Nat
  webserver_port : Option Nat
  be_process_pid : Option Nat
  be_process_command : Option String
  be_install_dir : Option Path
  http_port : Option Nat
  rpc_port : Option Nat
  query_port : Option Nat
  edit_log_port : Option Nat
  cloud_http_port : Option Nat
  meta_dir : Option Path
  fe_process_pid : Option Nat
  fe_process_command : Option String
  fe_install_dir : Option Path
  priority_networks : Option String
  meta_service_endpoint : Option String
  mysql : Option MySQLConfig
deriving DecidableEq, Repr

/-- `DorisConfig::default()` from config_loader/mod.rs. -/
def DorisConfig.default : DorisConfig where
  environment := .Unknown
  install_dir := "/opt/selectdb"
  conf_dir := "/opt/selectdb/conf"
  log_dir := "/opt/selectdb/log"
  jdk_path := "/opt/jdk"
  output_dir := "/opt/selectdb/information"
  timeout_seconds := 60
  no_progress_animation := false
  process_pid := none
  process_command := none
  last_detected := none
  be_port := none
  brpc_port := none
  heartbeat_service_port := none
  webserver_port := none
  be_process_pid := none
  be_process_command := none
  be_install_dir := none
  http_port := none
  rpc_port := none
  query_port := none
  edit_log_port := none
  cloud_http_port := none
  meta_dir := none
  fe_process_pid := none
  fe_process_command := none
  fe_install_dir := none
  priority_networks := none
  meta_service_endpoint := none
  mysql := none

/-! ### String and number parsing helpers (Rust std semantics) -/

/-- Numeric value of an all-digit character list. -/
def digitsToNat (cs : List Char) : Nat := cs.foldl (fun n c => 10 * n + (c.toNat - 48)) 0

/-- Rust `str::parse::<uN>()`: an optional leading plus sign, then one or more
ASCII digits, rejecting values at or above `bound`. -/
def parseUIntLt (bound : Nat) (s : String) : Option Nat :=
  let cs :=
    match s.toList with
    | '+' :: rest => rest
    | cs => cs
  if cs.isEmpty then none
  else if cs.all (fun c => c.isDigit) then
    let n := digitsToNat cs
    if n < bound then some n else none
  else none

/-- Rust `str::trim_matches(...)` for the double-quote character: strips all
leading and trailing quote characters. -/
def trimMatchesQuote (s : String) : String :=
  String.mk (((s.toList.dropWhile (fun c => c = '"')).reverse.dropWhile (fun c => c = '"')).reverse)

/-- Strips an exact literal character-list from the front, or fails. -/
def dropLit : List Char → List Char → Option (List Char)
  | [], cs => some cs
  | _ :: _, [] => none
  | k :: ks, c :: cs => if c = k then dropLit ks cs else none

/-! ### regex_utils.rs -/

/-- `regex_utils::extract_key_value`: matches the anchored pattern
`^\s*KEY\s*=\s*(.*?)\s*$` (KEY taken literally) and returns the captured
right-hand side, trimmed and with surrounding quote characters removed. -/
def extract_key_value (line key : String) : Option String :=
  let cs := line.toList.dropWhile (fun c => c.isWhitespace)
  match dropLit key.toList cs with
  | none => none
  | some rest =>
    match rest.dropWhile (fun c => c.isWhitespace) with
    | '=' :: rest2 => some (trimMatchesQuote (String.mk rest2).trim)
    | _ => none

/-- `regex_utils::extract_value_from_line`: matches
`^\s*[^=\s]+\s*=\s*(.*?)\s*$` and returns the captured right-hand side,
trimmed and with surrounding quote characters removed. -/
def extract_value_from_line (line : String) : Option String :=
  let cs := line.toList.dropWhile (fun c => c.isWhitespace)
  let keyRun := cs.takeWhile (fun c => (!c.isWhitespace) && c != '=')
  if keyRun.isEmpty then none
  else
    match (cs.drop keyRun.length).dropWhile (fun c => c.isWhitespace) with
    | '=' :: rest2 => some (trimMatchesQuote (String.mk rest2).trim)
    | _ => none

/-! ### config_parser.rs -/

/-- `parse_key_value::<u16>` applied to one already-claimed target field:
sets the field when the key matches and the value parses, otherwise leaves
the previous value. -/
def applyPortKey (line key : String) (v : Option Nat) : Option Nat :=
  match (extract_key_value line key).bind (parseUIntLt 65536) with
  | some n => some n
  | none => v

/-- `parse_key_value::<String>`: `String::from_str` never fails. -/
def applyStringKey (line key : String) (v : Option String) : Option String :=
  match extract_key_value line key with
  | some s => some s
  | none => v

/-- `parse_path_key_value`: stores the extracted value as a path. -/
def applyPathKey (line key : String) (v : Option Path) : Option Path :=
  match extract_key_value line key with
  | some s => some s
  | none => v

/-- The `$\x7bDORIS_HOME\x7d` placeholder recognised in LOG_DIR values. -/
def dorisHomeToken : String := "$\x7bDORIS_HOME\x7d"

/-- Substring test, used for `log_dir.contains(...)`. -/
def containsSub (s pat : String) : Bool := (s.splitOn pat).length != 1

/-- The LOG_DIR branch of `parse_config_content`: extract the value and
substitute the install-root placeholder when an install dir was supplied. -/
def logDirValue (inst : Option Path) (line : String) (old : Path) : Path :=
  match extract_value_from_line line with
  | none => old
  | some logDir =>
    match inst with
    | some install =>
      if containsSub logDir dorisHomeToken then logDir.replace dorisHomeToken install
      else logDir
    | none => logDir

/-- One iteration of the line loop in `parse_config_content`.  The source
dispatches each recognised key of the role-specific tables
(`get_env_config_items`, `get_env_path_config_items`, `get_common_config_items`)
to its own distinct field; since the targets are disjoint the sequential
dispatch collapses to one record update per role. -/
def parseConfigLine (env : Environment) (inst : Option Path) (cfg : DorisConfig)
    (raw : String) : DorisConfig :=
  let line := raw.trim
  if line.startsWith "#" || line.isEmpty then cfg
  else
    let newLog := if line.startsWith "LOG_DIR" then logDirValue inst line cfg.log_dir else cfg.log_dir
    match env with
    | .BE =>
      { cfg with
        log_dir := newLog
        be_port := applyPortKey line "be_port" cfg.be_port
        brpc_port := applyPortKey line "brpc_port" cfg.brpc_port
        heartbeat_service_port := applyPortKey line "heartbeat_service_port" cfg.heartbeat_service_port
        webserver_port := applyPortKey line "webserver_port" cfg.webserver_port
        priority_networks := applyStringKey line "priority_networks" cfg.priority_networks
        meta_service_endpoint := applyStringKey line "meta_service_endpoint" cfg.meta_service_endpoint }
    | .FE =>
      { cfg with
        log_dir := newLog
        http_port := applyPortKey line "http_port" cfg.http_port
        rpc_port := applyPortKey line "rpc_port" cfg.rpc_port
        query_port := applyPortKey line "query_port" cfg.query_port
        edit_log_port := applyPortKey line "edit_log_port" cfg.edit_log_port
        cloud_http_port := applyPortKey line "cloud_http_port" cfg.cloud_http_port
        meta_dir := applyPathKey line "meta_dir" cfg.meta_dir
        priority_networks := applyStringKey line "priority_networks" cfg.priority_networks
        meta_service_endpoint := applyStringKey line "meta_service_endpoint" cfg.meta_service_endpoint }
    | _ =>
      { cfg with
        log_dir := newLog
        priority_networks := applyStringKey line "priority_networks" cfg.priority_networks
        meta_service_endpoint := applyStringKey line "meta_service_endpoint" cfg.meta_service_endpoint }

/-- `parse_config_content` over an explicit list of lines. -/
def parse_config_content (env : Environment) (inst : Option Path)
    (cfg : DorisConfig) (lines : List String) : DorisConfig :=
  lines.foldl (parseConfigLine env inst) cfg

/-- `parse_config_internal` minus the file I/O: the file content is supplied
as a list of lines; the initial record and the BE-only install-dir parameter
follow the source. -/
def parseRoleLines (env : Environment) (installDir jdkPath : Path)
    (lines : List String) : DorisConfig :=
  parse_config_content env (if env = .BE then some installDir else none)
    { DorisConfig.default with
      environment := env
      install_dir := installDir
      conf_dir := pathJoin installDir "conf"
      jdk_path := jdkPath }
    lines

/-! ### Claim C2: specification-side characterization of port parsing -/

/-- The port value contributed by one raw config line for a given key:
`none` for comments, blank lines, lines for other keys, and values that do
not parse as `u16`. -/
def portLineValue (key raw : String) : Option Nat :=
  let line := raw.trim
  if line.startsWith "#" || line.isEmpty then none
  else (extract_key_value line key).bind (parseUIntLt 65536)

/-- The value of the last line of the file that assigns the key a valid u16,
if any: the specification-level description of a parsed port field. -/
def lastPortValue (key : String) (lines : List String) : Option Nat :=
  (lines.filterMap (portLineValue key)).getLast?

/-- The effect of one line on a single port field, as a fold step. -/
def stepPort (key : String) (v : Option Nat) (raw : String) : Option Nat :=
  let line := raw.trim
  if line.startsWith "#" || line.isEmpty then v else applyPortKey line key v

theorem stepPort_eq (key : String) (v : Option Nat) (raw : String) :
    stepPort key v raw =
      match portLineValue key raw with
      | some w => some w
      | none => v := by
  simp only [stepPort, portLineValue, applyPortKey]
  cases h : raw.trim.startsWith "#" || raw.trim.isEmpty <;> simp [h]

theorem foldlProj {α β : Type} (f : α → String → α) (g : β → String → β) (proj : α → β)
    (h : ∀ a s, proj (f a s) = g (proj a) s) :
    ∀ (lines : List String) (a : α), proj (lines.foldl f a) = lines.foldl g (proj a) := by
  intro lines
  induction lines with
  | nil => intro a; rfl
  | cons s t ih => intro a; simp only [List.foldl_cons, h, ih]

theorem foldl_const {β : Type} : ∀ (lines : List String) (v : β),
    lines.foldl (fun v _ => v) v = v := by
  intro lines
  induction lines with
  | nil => intro v; rfl
  | cons s t ih => intro v; simp only [List.foldl_cons, ih]

theorem getLast?_cons_eq {α : Type} (a : α) : ∀ l : List α,
    (a :: l).getLast? =
      match l.getLast? with
      | some w => some w
      | none => some a := by
  intro l
  induction l generalizing a with
  | nil => rfl
  | cons b t ih =>
    have h1 : (a :: b :: t).getLast? = (b :: t).getLast? := rfl
    rw [h1, ih b]
    cases t.getLast? <;> rfl

theorem stepPort_foldl (key : String) : ∀ (lines : List String) (v : Option Nat),
    lines.foldl (stepPort key) v =
      match lastPortValue key lines with
      | some w => some w
      | none => v := by
  intro lines
  induction lines with
  | nil => intro v; rfl
  | cons raw t ih =>
    intro v
    simp only [List.foldl_cons, ih, stepPort_eq, lastPortValue, List.filterMap_cons]
    cases h : portLineValue key raw
    · simp
    · rw [getLast?_cons_eq]
      cases (t.filterMap (portLineValue key)).getLast? <;> rfl

theorem port_field_eq (proj : DorisConfig → Option Nat) (env : Environment)
    (inst : Option Path) (key : String)
    (hline : ∀ cfg raw, proj (parseConfigLine env inst cfg raw) = stepPort key (proj cfg) raw)
    (cfg0 : DorisConfig) (h0 : proj cfg0 = none) (lines : List String) :
    proj (parse_config_content env inst cfg0 lines) = lastPortValue key lines := by
  unfold parse_config_content
  rw [foldlProj _ _ proj hline lines cfg0, h0, stepPort_foldl]
  cases h : lastPortValue key lines <;> simp [h]

theorem port_field_none (proj : DorisConfig → Option Nat) (env : Environment)
    (inst : Option Path)
    (hline : ∀ cfg raw, proj (parseConfigLine env inst cfg raw) = proj cfg)
    (cfg0 : DorisConfig) (h0 : proj cfg0 = none) (lines : List String) :
    proj (parse_config_content env inst cfg0 lines) = none := by
  unfold parse_config_content
  rw [foldlProj _ (fun v _ => v) proj (by intro a s; rw [hline]) lines cfg0, foldl_const, h0]

theorem line_FE_http (inst : Option Path) (cfg : DorisConfig) (raw : String) :
    (parseConfigLine .FE inst cfg raw).http_port = stepPort "http_port" cfg.http_port raw := by
  simp only [parseConfigLine, stepPort]
  cases h : raw.trim.startsWith "#" || raw.trim.isEmpty <;> simp [h]

theorem line_FE_rpc (inst : Option Path) (cfg : DorisConfig) (raw : String) :
    (parseConfigLine .FE inst cfg raw).rpc_port = stepPort "rpc_port" cfg.rpc_port raw := by
  simp only [parseConfigLine, stepPort]
  cases h : raw.trim.startsWith "#" || raw.trim.isEmpty <;> simp [h]

theorem line_FE_query (inst : Option Path) (cfg : DorisConfig) (raw : String) :
    (parseConfigLine .FE inst cfg raw).query_port = stepPort "query_port" cfg.query_port raw := by
  simp only [parseConfigLine, stepPort]
  cases h : raw.trim.startsWith "#" || raw.trim.isEmpty <;> simp [h]

theorem line_FE_edit_log (inst : Option Path) (cfg : DorisConfig) (raw : String) :
    (parseConfigLine .FE inst cfg raw).edit_log_port = stepPort "edit_log_port" cfg.edit_log_port raw := by
  simp only [parseConfigLine, stepPort]
  cases h : raw.trim.startsWith "#" || raw.trim.isEmpty <;> simp [h]

theorem line_FE_cloud_http (inst : Option Path) (cfg : DorisConfig) (raw : String) :
    (parseConfigLine .FE inst cfg raw).cloud_http_port = stepPort "cloud_http_port" cfg.cloud_http_port raw := by
  simp only [parseConfigLine, stepPort]
  cases h : raw.trim.startsWith "#" || raw.trim.isEmpty <;> simp [h]

theorem line_FE_be_port (inst : Option Path) (cfg : DorisConfig) (raw : String) :
    (parseConfigLine .FE inst cfg raw).be_port = cfg.be_port := by
  simp only [parseConfigLine]
  cases h : raw.trim.startsWith "#" || raw.trim.isEmpty <;> simp [h]

theorem line_FE_brpc (inst : Option Path) (cfg : DorisConfig) (raw : String) :
    (parseConfigLine .FE inst cfg raw).brpc_port = cfg.brpc_port := by
  simp only [parseConfigLine]
  cases h : raw.trim.startsWith "#" || raw.trim.isEmpty <;> simp [h]

theorem line_FE_heartbeat (inst : Option Path) (cfg : DorisConfig) (raw : String) :
    (parseConfigLine .FE inst cfg raw).heartbeat_service_port = cfg.heartbeat_service_port := by
  simp only [parseConfigLine]
  cases h : raw.trim.startsWith "#" || raw.trim.isEmpty <;> simp [h]

theorem line_FE_webserver (inst : Option Path) (cfg : DorisConfig) (raw : String) :
    (parseConfigLine .FE inst cfg raw).webserver_port = cfg.webserver_port := by
  simp only [parseConfigLine]
  cases h : raw.trim.startsWith "#" || raw.trim.isEmpty <;> simp [h]

theorem line_BE_be_port (inst : Option Path) (cfg : DorisConfig) (raw : String) :
    (parseConfigLine .BE inst cfg raw).be_port = stepPort "be_port" cfg.be_port raw := by
  simp only [parseConfigLine, stepPort]
  cases h : raw.trim.startsWith "#" || raw.trim.isEmpty <;> simp [h]

theorem line_BE_brpc (inst : Option Path) (cfg : DorisConfig) (raw : String) :
    (parseConfigLine .BE inst cfg raw).brpc_port = stepPort "brpc_port" cfg.brpc_port raw := by
  simp only [parseConfigLine, stepPort]
  cases h : raw.trim.startsWith "#" || raw.trim.isEmpty <;> simp [h]

theorem line_BE_heartbeat (inst : Option Path) (cfg : DorisConfig) (raw : String) :
    (parseConfigLine .BE inst cfg raw).heartbeat_service_port
      = stepPort "heartbeat_service_port" cfg.heartbeat_service_port raw := by
  simp only [parseConfigLine, stepPort]
  cases h : raw.trim.startsWith "#" || raw.trim.isEmpty <;> simp [h]

theorem line_BE_webserver (inst : Option Path) (cfg : DorisConfig) (raw : String) :
    (parseConfigLine .BE inst cfg raw).webserver_port
      = stepPort "webserver_port" cfg.webserver_port raw := by
  simp only [parseConfigLine, stepPort]
  cases h : raw.trim.startsWith "#" || raw.trim.isEmpty <;> simp [h]

theorem line_BE_http (inst : Option Path) (cfg : DorisConfig) (raw : String) :
    (parseConfigLine .BE inst cfg raw).http_port = cfg.http_port := by
  simp only [parseConfigLine]
  cases h : raw.trim.startsWith "#" || raw.trim.isEmpty <;> simp [h]

theorem line_BE_rpc (inst : Option Path) (cfg : DorisConfig) (raw : String) :
    (parseConfigLine .BE inst cfg raw).rpc_port = cfg.rpc_port := by
  simp only [parseConfigLine]
  cases h : raw.trim.startsWith "#" || raw.trim.isEmpty <;> simp [h]

theorem line_BE_query (inst : Option Path) (cfg : DorisConfig) (raw : String) :
    (parseConfigLine .BE inst cfg raw).query_port = cfg.query_port := by
  simp only [parseConfigLine]
  cases h : raw.trim.startsWith "#" || raw.trim.isEmpty <;> simp [h]

theorem line_BE_edit_log (inst : Option Path) (cfg : DorisConfig) (raw : String) :
    (parseConfigLine .BE inst cfg raw).edit_log_port = cfg.edit_log_port := by
  simp only [parseConfigLine]
  cases h : raw.trim.startsWith "#" || raw.trim.isEmpty <;> simp [h]

theorem line_BE_cloud_http (inst : Option Path) (cfg : DorisConfig) (raw : String) :
    (parseConfigLine .BE inst cfg raw).cloud_http_port = cfg.cloud_http_port := by
  simp only [parseConfigLine]
  cases h : raw.trim.startsWith "#" || raw.trim.isEmpty <;> simp [h]

/-- Claim C2: for every role config file content, the parser populates each of
the role's recognised port fields with the (last) value assigned to its key
that parses as a u16 — absent or malformed assignments leave the field `none`,
never 0 or a placeholder — and every port field of the other role stays
`none`; a malformed line affects no other line. -/
theorem c2_port_fields_exact (lines : List String) (inst jdk : Path) :
    ((parseRoleLines .FE inst jdk lines).http_port = lastPortValue "http_port" lines
      ∧ (parseRoleLines .FE inst jdk lines).rpc_port = lastPortValue "rpc_port" lines
      ∧ (parseRoleLines .FE inst jdk lines).query_port = lastPortValue "query_port" lines
      ∧ (parseRoleLines .FE inst jdk lines).edit_log_port = lastPortValue "edit_log_port" lines
      ∧ (parseRoleLines .FE inst jdk lines).cloud_http_port = lastPortValue "cloud_http_port" lines
      ∧ (parseRoleLines .FE inst jdk lines).be_port = none
      ∧ (parseRoleLines .FE inst jdk lines).brpc_port = none
      ∧ (parseRoleLines .FE inst jdk lines).heartbeat_service_port = none
      ∧ (parseRoleLines .FE inst jdk lines).webserver_port = none)
    ∧ ((parseRoleLines .BE inst jdk lines).be_port = lastPortValue "be_port" lines
      ∧ (parseRoleLines .BE inst jdk lines).brpc_port = lastPortValue "brpc_port" lines
      ∧ (parseRoleLines .BE inst jdk lines).heartbeat_service_port
          = lastPortValue "heartbeat_service_port" lines
      ∧ (parseRoleLines .BE inst jdk lines).webserver_port = lastPortValue "webserver_port" lines
      ∧ (parseRoleLines .BE inst jdk lines).http_port = none
      ∧ (parseRoleLines .BE inst jdk lines).rpc_port = none
      ∧ (parseRoleLines .BE inst jdk lines).query_port = none
      ∧ (parseRoleLines .BE inst jdk lines).edit_log_port = none
      ∧ (parseRoleLines .BE inst jdk lines).cloud_http_port = none) := by
  refine ⟨⟨?_, ?_, ?_, ?_, ?_, ?_, ?_, ?_, ?_⟩, ?_, ?_, ?_, ?_, ?_, ?_, ?_, ?_, ?_⟩
  · exact port_field_eq (fun c => c.http_port) .FE none "http_port" (line_FE_http none) _ rfl lines
  · exact port_field_eq (fun c => c.rpc_port) .FE none "rpc_port" (line_FE_rpc none) _ rfl lines
  · exact port_field_eq (fun c => c.query_port) .FE none "query_port" (line_FE_query none) _ rfl lines
  · exact port_field_eq (fun c => c.edit_log_port) .FE none "edit_log_port" (line_FE_edit_log none) _ rfl lines
  · exact port_field_eq (fun c => c.cloud_http_port) .FE none "cloud_http_port" (line_FE_cloud_http none) _ rfl lines
  · exact port_field_none (fun c => c.be_port) .FE none (line_FE_be_port none) _ rfl lines
  · exact port_field_none (fun c => c.brpc_port) .FE none (line_FE_brpc none) _ rfl lines
  · exact port_field_none (fun c => c.heartbeat_service_port) .FE none (line_FE_heartbeat none) _ rfl lines
  · exact port_field_none (fun c => c.webserver_port) .FE none (line_FE_webserver none) _ rfl lines
  · exact port_field_eq (fun c => c.be_port) .BE (some inst) "be_port" (line_BE_be_port (some inst)) _ rfl lines
  · exact port_field_eq (fun c => c.brpc_port) .BE (some inst) "brpc_port" (line_BE_brpc (some inst)) _ rfl lines
  · exact port_field_eq (fun c => c.heartbeat_service_port) .BE (some inst) "heartbeat_service_port" (line_BE_heartbeat (some inst)) _ rfl lines
  · exact port_field_eq (fun c => c.webserver_port) .BE (some inst) "webserver_port" (line_BE_webserver (some inst)) _ rfl lines
  · exact port_field_none (fun c => c.http_port) .BE (some inst) (line_BE_http (some inst)) _ rfl lines
  · exact port_field_none (fun c => c.rpc_port) .BE (some inst) (line_BE_rpc (some inst)) _ rfl lines
  · exact port_field_none (fun c => c.query_port) .BE (some inst) (line_BE_query (some inst)) _ rfl lines
  · exact port_field_none (fun c => c.edit_log_port) .BE (some inst) (line_BE_edit_log (some inst)) _ rfl lines
  · exact port_field_none (fun c => c.cloud_http_port) .BE (some inst) (line_BE_cloud_http (some inst)) _ rfl lines

/-! ### config_persister.rs: on-disk schema shapes -/

structure Metadata where
  environment : String
  version : String
deriving DecidableEq, Repr

/-- The full `[paths]` shape of the flat schemas. -/
structure Paths where
  install_dir : String
  conf_dir : String
  log_dir : String
  jdk_path : String
  output_dir : String
  meta_dir : Option String
deriving DecidableEq, Repr

/-- The reduced `[paths]` shape of the organized and legacy-with-mysql schemas. -/
structure CommonPaths where
  jdk_path : String
  output_dir : String
deriving DecidableEq, Repr

structure Ports where
  be_port : Option Nat
  brpc_port : Option Nat
  heartbeat_service_port : Option Nat
  webserver_port : Option Nat
  http_port : Option Nat
  rpc_port : Option Nat
  query_port : Option Nat
  edit_log_port : Option Nat
  cloud_http_port : Option Nat
deriving DecidableEq, Repr

structure Network where
  priority_networks : Option String
  meta_service_endpoint : Option String
deriving DecidableEq, Repr

structure Settings where
  timeout_seconds : Nat
  no_progress_animation : Bool
deriving DecidableEq, Repr

structure ProcessInfo where
  pid : Option Nat
  command : Option String
  last_detected : Option Nat
  be_process_pid : Option Nat
  be_process_command : Option String
  be_install_dir : Option String
  fe_process_pid : Option Nat
  fe_process_command : Option String
  fe_install_dir : Option String
deriving DecidableEq, Repr

structure FePorts where
  http_port : Option Nat
  rpc_port : Option Nat
  query_port : Option Nat
  edit_log_port : Option Nat
  cloud_http_port : Option Nat
deriving DecidableEq, Repr

structure BePorts where
  be_port : Option Nat
  brpc_port : Option Nat
  heartbeat_service_port : Option Nat
  webserver_port : Option Nat
deriving DecidableEq, Repr

structure FeConfig where
  install_dir : String
  conf_dir : String
  log_dir : String
  meta_dir : Option String
  ports : FePorts
  process_pid : Option Nat
  process_command : Option String
deriving DecidableEq, Repr

structure BeConfig where
  install_dir : String
  conf_dir : String
  log_dir : String
  ports : BePorts
  process_pid : Option Nat
  process_command : Option String
deriving DecidableEq, Repr

/-- Current on-disk schema: organized fe/be sub-sections. -/
structure OrganizedConfig where
  metadata : Metadata
  paths : CommonPaths
  fe : Option FeConfig
  be : Option BeConfig
  network : Network
  settings : Settings
  process : ProcessInfo
  mysql : Option MySQLConfig
deriving DecidableEq, Repr

/-- Flat schema with process bookkeeping. -/
structure PersistentConfig where
  metadata : Metadata
  paths : Paths
  ports : Ports
  network : Network
  settings : Settings
  process : ProcessInfo
  mysql : Option MySQLConfig
deriving DecidableEq, Repr

/-- Oldest flat single-role schema (no process section). -/
structure LegacyConfig where
  metadata : Metadata
  paths : Paths
  ports : Ports
  network : Network
  settings : Settings
deriving DecidableEq, Repr

/-- The raw `[paths]` table as found on disk, every member optional. -/
structure PathsTable where
  install_dir : Option String
  conf_dir : Option String
  log_dir : Option String
  jdk_path : Option String
  output_dir : Option String
  meta_dir : Option String
deriving DecidableEq, Repr

/-- An abstract well-formed TOML document for the persisted config file: the
union of the tables any historical schema uses, each section optional.
serde-toml silently ignores unknown tables and fails a schema whose required
field is missing, which is exactly what the shape parsers below model. -/
structure TomlDoc where
  metadata : Option Metadata
  paths : Option PathsTable
  ports : Option Ports
  fe : Option FeConfig
  be : Option BeConfig
  network : Option Network
  settings : Option Settings
  process : Option ProcessInfo
  mysql : Option MySQLConfig
deriving DecidableEq, Repr

/-- Deserializing the `[paths]` table as `CommonPaths` (jdk_path and
output_dir required, extra members ignored). -/
def PathsTable.asCommon (t : PathsTable) : Option CommonPaths :=
  match t.jdk_path, t.output_dir with
  | some j, some o => some ⟨j, o⟩
  | _, _ => none

/-- Deserializing the `[paths]` table as the full `Paths` shape. -/
def PathsTable.asFull (t : PathsTable) : Option Paths :=
  match t.install_dir, t.conf_dir, t.log_dir, t.jdk_path, t.output_dir with
  | some i, some c, some l, some j, some o => some ⟨i, c, l, j, o, t.meta_dir⟩
  | _, _, _, _, _ => none

/-- Serialized form of a full `Paths` value. -/
def Paths.toTable (p : Paths) : PathsTable :=
  ⟨some p.install_dir, some p.conf_dir, some p.log_dir, some p.jdk_path, some p.output_dir, p.meta_dir⟩

/-- Serialized form of a `CommonPaths` value. -/
def CommonPaths.toTable (p : CommonPaths) : PathsTable :=
  ⟨none, none, none, some p.jdk_path, some p.output_dir, none⟩

/-- Environment decoding used by every schema converter. -/
def envFromString (s : String) : Environment :=
  if s = "FE" then .FE
  else if s = "BE" then .BE
  else if s = "FE + BE" then .Mixed
  else .Unknown

/-- Environment encoding from `ConfigConverter<Metadata>`. -/
def envToString (e : Environment) : String :=
  match e with
  | .FE => "FE"
  | .BE => "BE"
  | .Mixed => "FE + BE"
  | .Unknown => "Unknown"

/-- Models the compile-time `CARGO_PKG_VERSION` constant; its value is never
read back into a `DorisConfig`. -/
def cargoPkgVersion : String := "1.0.0"

/-- `parse_legacy_config_with_mysql`: deserialize the legacy-with-mysql shape
(metadata, common paths, network, settings, process, optional mysql) and
convert it.  Install/conf/log dirs are hard-coded and every port field and
meta_dir are left absent, exactly as in the source. -/
def parse_legacy_config_with_mysql (d : TomlDoc) : Option DorisConfig :=
  match d.metadata, d.paths.bind PathsTable.asCommon, d.network, d.settings, d.process with
  | some md, some cp, some nw, some st, some pr =>
    some
      { environment := envFromString md.environment
        install_dir := "/opt/selectdb"
        conf_dir := "/opt/selectdb/conf"
        log_dir := "/opt/selectdb/log"
        jdk_path := cp.jdk_path
        output_dir := cp.output_dir
        timeout_seconds := st.timeout_seconds
        no_progress_animation := st.no_progress_animation
        process_pid := pr.pid
        process_command := pr.command
        last_detected := pr.last_detected
        be_process_pid := pr.be_process_pid
        be_process_command := pr.be_process_command
        be_install_dir := pr.be_install_dir
        fe_process_pid := pr.fe_process_pid
        fe_process_command := pr.fe_process_command
        fe_install_dir := pr.fe_install_dir
        be_port := none
        brpc_port := none
        heartbeat_service_port := none
        webserver_port := none
        http_port := none
        rpc_port := none
        query_port := none
        edit_log_port := none
        cloud_http_port := none
        meta_dir := none
        priority_networks := nw.priority_networks
        meta_service_endpoint := nw.meta_service_endpoint
        mysql := d.mysql }
  | _, _, _, _, _ => none

/-- Deserializing the current organized schema from a document. -/
def deserOrganized (d : TomlDoc) : Option OrganizedConfig :=
  match d.metadata, d.paths.bind PathsTable.asCommon, d.network, d.settings, d.process with
  | some md, some cp, some nw, some st, some pr =>
    some ⟨md, cp, d.fe, d.be, nw, st, pr, d.mysql⟩
  | _, _, _, _, _ => none

/-- `from_organized_config`. -/
def from_organized_config (o : OrganizedConfig) : DorisConfig :=
  let environment := envFromString o.metadata.environment
  let config : DorisConfig :=
    { environment := environment
      install_dir := ""
      conf_dir := ""
      log_dir := ""
      jdk_path := o.paths.jdk_path
      output_dir := o.paths.output_dir
      timeout_seconds := o.settings.timeout_seconds
      no_progress_animation := o.settings.no_progress_animation
      priority_networks := o.network.priority_networks
      meta_service_endpoint := o.network.meta_service_endpoint
      process_pid := o.process.pid
      process_command := o.process.command
      last_detected := o.process.last_detected
      be_port := none
      brpc_port := none
      heartbeat_service_port := none
      webserver_port := none
      http_port := none
      rpc_port := none
      query_port := none
      edit_log_port := none
      cloud_http_port := none
      meta_dir := none
      be_process_pid := none
      be_process_command := none
      be_install_dir := none
      fe_process_pid := none
      fe_process_command := none
      fe_install_dir := none
      mysql := o.mysql }
  let config :=
    match o.be with
    | some be =>
      let config :=
        { config with
          be_port := be.ports.be_port
          brpc_port := be.ports.brpc_port
          heartbeat_service_port := be.ports.heartbeat_service_port
          webserver_port := be.ports.webserver_port }
      let config :=
        if environment = .BE then
          { config with install_dir := be.install_dir, conf_dir := be.conf_dir, log_dir := be.log_dir }
        else config
      { config with
        be_process_pid := be.process_pid
        be_process_command := be.process_command
        be_install_dir := some be.install_dir }
    | none => config
  let config :=
    match o.fe with
    | some fe =>
      let config :=
        { config with
          http_port := fe.ports.http_port
          rpc_port := fe.ports.rpc_port
          query_port := fe.ports.query_port
          edit_log_port := fe.ports.edit_log_port
          cloud_http_port := fe.ports.cloud_http_port
          meta_dir := fe.meta_dir }
      let config :=
        if environment = .FE then
          { config with install_dir := fe.install_dir, conf_dir := fe.conf_dir, log_dir := fe.log_dir }
        else config
      { config with
        fe_process_pid := fe.process_pid
        fe_process_command := fe.process_command
        fe_install_dir := some fe.install_dir }
    | none => config
  if environment = .Mixed then
    match o.be with
    | some be =>
      { config with install_dir := be.install_dir, conf_dir := be.conf_dir, log_dir := be.log_dir }
    | none =>
      match o.fe with
      | some fe =>
        { config with install_dir := fe.install_dir, conf_dir := fe.conf_dir, log_dir := fe.log_dir }
      | none => config
  else config

/-- Deserializing the flat-with-process schema from a document. -/
def deserPersistent (d : TomlDoc) : Option PersistentConfig :=
  match d.metadata, d.paths.bind PathsTable.asFull, d.ports, d.network, d.settings, d.process with
  | some md, some pa, some po, some nw, some st, some pr =>
    some ⟨md, pa, po, nw, st, pr, d.mysql⟩
  | _, _, _, _, _, _ => none

/-- `from_persistent_config` (identical to `ConfigConverter<DorisConfig> for
PersistentConfig`). -/
def from_persistent_config (p : PersistentConfig) : DorisConfig :=
  { environment := envFromString p.metadata.environment
    install_dir := p.paths.install_dir
    conf_dir := p.paths.conf_dir
    log_dir := p.paths.log_dir
    jdk_path := p.paths.jdk_path
    output_dir := p.paths.output_dir
    timeout_seconds := p.settings.timeout_seconds
    no_progress_animation := p.settings.no_progress_animation
    process_pid := p.process.pid
    process_command := p.process.command
    last_detected := p.process.last_detected
    be_process_pid := p.process.be_process_pid
    be_process_command := p.process.be_process_command
    be_install_dir := p.process.be_install_dir
    fe_process_pid := p.process.fe_process_pid
    fe_process_command := p.process.fe_process_command
    fe_install_dir := p.process.fe_install_dir
    be_port := p.ports.be_port
    brpc_port := p.ports.brpc_port
    heartbeat_service_port := p.ports.heartbeat_service_port
    webserver_port := p.ports.webserver_port
    http_port := p.ports.http_port
    rpc_port := p.ports.rpc_port
    query_port := p.ports.query_port
    edit_log_port := p.ports.edit_log_port
    cloud_http_port := p.ports.cloud_http_port
    meta_dir := p.paths.meta_dir
    priority_networks := p.network.priority_networks
    meta_service_endpoint := p.network.meta_service_endpoint
    mysql := p.mysql }

/-- Models the serde failure for `PersistentConfig` being exactly the
"missing field process" error: every earlier required piece deserializes and
only the process table is absent. -/
def persistentMissingProcess (d : TomlDoc) : Bool :=
  d.metadata.isSome && (d.paths.bind PathsTable.asFull).isSome && d.ports.isSome
    && d.network.isSome && d.settings.isSome && d.process.isNone

/-- Deserializing the oldest flat schema (no process section required). -/
def deserLegacy (d : TomlDoc) : Option LegacyConfig :=
  match d.metadata, d.paths.bind PathsTable.asFull, d.ports, d.network, d.settings with
  | some md, some pa, some po, some nw, some st => some ⟨md, pa, po, nw, st⟩
  | _, _, _, _, _ => none

def emptyProcessInfo : ProcessInfo :=
  ⟨none, none, none, none, none, none, none, none, none⟩

/-- The document written when serializing a `PersistentConfig`. -/
def serializePersistent (p : PersistentConfig) : TomlDoc :=
  { metadata := some p.metadata
    paths := some p.paths.toTable
    ports := some p.ports
    fe := none
    be := none
    network := some p.network
    settings := some p.settings
    process := some p.process
    mysql := p.mysql }

/-- `migrate_legacy_config`: parse the oldest flat schema, attach an empty
process table, rewrite the file in the flat-with-process schema and return the
converted record together with the rewritten document. -/
def migrate_legacy_config (d : TomlDoc) : Option (DorisConfig × TomlDoc) :=
  match deserLegacy d with
  | some legacy =>
    let newConfig : PersistentConfig :=
      ⟨legacy.metadata, legacy.paths, legacy.ports, legacy.network, legacy.settings,
        emptyProcessInfo, none⟩
    some (from_persistent_config newConfig, serializePersistent newConfig)
  | none => none

inductive CliError
  | ConfigError (msg : String)
  | ProcessNotFound (msg : String)
deriving DecidableEq, Repr

/-- The observable state of the persisted config file. -/
inductive FileState
  | missing
  | unreadable
  | notToml
  | toml (d : TomlDoc)
deriving DecidableEq, Repr

/-- `load_persisted_config`, with the availability of the home directory and
the state of the config file passed in explicitly.  Returns the loaded record
together with the document silently written back by a legacy migration, if
any.  Parse failures only ever produce the default record. -/
def load_persisted_config (home : Bool) (fs : FileState) :
    Except CliError (DorisConfig × Option TomlDoc) :=
  if !home then
    .error (.ConfigError "Could not determine user home directory for config path")
  else
    match fs with
    | .missing => .ok (DorisConfig.default, none)
    | .unreadable => .ok (DorisConfig.default, none)
    | .notToml => .ok (DorisConfig.default, none)
    | .toml d =>
      match parse_legacy_config_with_mysql d with
      | some config => .ok (config, none)
      | none =>
        match deserOrganized d with
        | some organized => .ok (from_organized_config organized, none)
        | none =>
          match deserPersistent d with
          | some persistent => .ok (from_persistent_config persistent, none)
          | none =>
            if persistentMissingProcess d then
              match migrate_legacy_config d with
              | some (config, written) => .ok (config, some written)
              | none => .ok (DorisConfig.default, none)
            else .ok (DorisConfig.default, none)

/-- `to_organized_config`. -/
def to_organized_config (c : DorisConfig) : OrganizedConfig :=
  let feSection : Option FeConfig :=
    if c.environment = .FE ∨ c.environment = .Mixed then
      let feInstall := c.fe_install_dir.getD c.install_dir
      some
        { install_dir := feInstall
          conf_dir := pathJoin feInstall "conf"
          log_dir := pathJoin feInstall "log"
          meta_dir := c.meta_dir
          ports := ⟨c.http_port, c.rpc_port, c.query_port, c.edit_log_port, c.cloud_http_port⟩
          process_pid := if c.environment = .FE then c.process_pid else c.fe_process_pid
          process_command := if c.environment = .FE then c.process_command else c.fe_process_command }
    else none
  let beSection : Option BeConfig :=
    if c.environment = .BE ∨ c.environment = .Mixed then
      let beInstall := c.be_install_dir.getD c.install_dir
      some
        { install_dir := beInstall
          conf_dir := pathJoin beInstall "conf"
          log_dir := pathJoin beInstall "log"
          ports := ⟨c.be_port, c.brpc_port, c.heartbeat_service_port, c.webserver_port⟩
          process_pid := if c.environment = .BE then c.process_pid else c.be_process_pid
          process_command := if c.environment = .BE then c.process_command else c.be_process_command }
    else none
  { metadata := ⟨envToString c.environment, cargoPkgVersion⟩
    paths := ⟨c.jdk_path, c.output_dir⟩
    fe := feSection
    be := beSection
    network := ⟨c.priority_networks, c.meta_service_endpoint⟩
    settings := ⟨c.timeout_seconds, c.no_progress_animation⟩
    process := ⟨c.process_pid, c.process_command, c.last_detected, c.be_process_pid,
      c.be_process_command, c.be_install_dir, c.fe_process_pid, c.fe_process_command,
      c.fe_install_dir⟩
    mysql := c.mysql }

/-- The document written when serializing an `OrganizedConfig`. -/
def serializeOrganized (o : OrganizedConfig) : TomlDoc :=
  { metadata := some o.metadata
    paths := some o.paths.toTable
    ports := none
    fe := o.fe
    be := o.be
    network := some o.network
    settings := some o.settings
    process := some o.process
    mysql := o.mysql }

/-- `persist_config`: the document written to disk for a record. -/
def persist_config_doc (c : DorisConfig) : TomlDoc :=
  serializeOrganized (to_organized_config c)

/-- The record produced by `load_persisted_config`, defaulting on error.
Used to state concrete evaluations. -/
def loadedConfig (home : Bool) (fs : FileState) : DorisConfig :=
  match load_persisted_config home fs with
  | .ok (c, _) => c
  | .error _ => DorisConfig.default

/-- A historical flat single-role file in the oldest schema (metadata, full
paths, ports, network, settings, no process section): an FE install at
/home/doris/fe with http_port 8030. -/
def c1LegacyDoc : TomlDoc :=
  { metadata := some ⟨"FE", "1.0.0"⟩
    paths := some ⟨some "/home/doris/fe", some "/home/doris/fe/conf", some "/home/doris/fe/log",
      some "/opt/jdk", some "/opt/out", none⟩
    ports := some ⟨none, none, none, none, some 8030, none, none, none, none⟩
    fe := none
    be := none
    network := some ⟨none, none⟩
    settings := some ⟨60, false⟩
    process := none
    mysql := none }

/-- The record obtained by migrating the legacy file directly. -/
def c1Migrated : DorisConfig := loadedConfig true (.toml c1LegacyDoc)

/-- The record obtained by writing the migrated record in the current
organized schema and loading it back. -/
def c1Reloaded : DorisConfig := loadedConfig true (.toml (persist_config_doc c1Migrated))

/-- Claim C1 (code bug): migrating the flat single-role legacy schema, writing
the result in the current organized schema and loading it back does NOT
reproduce the same logical record.  Because `load_persisted_config` tries the
legacy-with-mysql shape first and its required sections are a subset of what
the organized serializer writes, the reload hard-codes install_dir to
/opt/selectdb and drops every port field, losing http_port 8030 and the
install dir of the migrated record. -/
theorem c1_migration_roundtrip_loses_data :
    c1Migrated.http_port = some 8030
      ∧ c1Migrated.install_dir = "/home/doris/fe"
      ∧ c1Migrated.environment = .FE
      ∧ c1Reloaded.http_port = none
      ∧ c1Reloaded.install_dir = "/opt/selectdb"
      ∧ c1Reloaded.environment = .FE
      ∧ c1Reloaded ≠ c1Migrated := by
  refine ⟨rfl, rfl, rfl, rfl, rfl, rfl, ?_⟩
  intro h
  exact absurd (congrArg DorisConfig.http_port h) (by decide)

/-- Claim C7: loading the persisted configuration is total whenever the home
directory is available — for every file state (absent, unreadable, not TOML
at all, or any TOML document, parseable under some schema or none) it returns
some record; when the file is absent, unreadable, not TOML at all, or a
document that no known schema shape (legacy-with-mysql, organized,
flat-with-process, or the legacy-migration rung) accepts, that record is the
default record and nothing is written back; and when the home directory
cannot be determined it returns exactly the home-directory error. -/
theorem c7_loader_total (fs : FileState) :
    (∃ v, load_persisted_config true fs = .ok v)
      ∧ load_persisted_config false fs
          = .error (.ConfigError "Could not determine user home directory for config path")
      ∧ load_persisted_config true .missing = .ok (DorisConfig.default, none)
      ∧ load_persisted_config true .unreadable = .ok (DorisConfig.default, none)
      ∧ load_persisted_config true .notToml = .ok (DorisConfig.default, none)
      ∧ (∀ d : TomlDoc, parse_legacy_config_with_mysql d = none → deserOrganized d = none →
          deserPersistent d = none → migrate_legacy_config d = none →
          load_persisted_config true (.toml d) = .ok (DorisConfig.default, none)) := by
  refine ⟨?_, rfl, rfl, rfl, rfl, ?_⟩
  · cases fs with
    | missing => exact ⟨_, rfl⟩
    | unreadable => exact ⟨_, rfl⟩
    | notToml => exact ⟨_, rfl⟩
    | toml d =>
      show ∃ v,
        (match parse_legacy_config_with_mysql d with
          | some config => Except.ok (config, none)
          | none =>
            match deserOrganized d with
            | some organized => Except.ok (from_organized_config organized, none)
            | none =>
              match deserPersistent d with
              | some persistent => Except.ok (from_persistent_config persistent, none)
              | none =>
                if persistentMissingProcess d then
                  match migrate_legacy_config d with
                  | some (config, written) => Except.ok (config, some written)
                  | none => Except.ok (DorisConfig.default, none)
                else Except.ok (DorisConfig.default, none)) = Except.ok v
      cases h1 : parse_legacy_config_with_mysql d with
      | some c => exact ⟨_, rfl⟩
      | none =>
        cases h2 : deserOrganized d with
        | some o => exact ⟨_, rfl⟩
        | none =>
          cases h3 : deserPersistent d with
          | some p => exact ⟨_, rfl⟩
          | none =>
            cases h4 : persistentMissingProcess d with
            | false => exact ⟨_, rfl⟩
            | true =>
              cases h5 : migrate_legacy_config d with
              | some pair => exact ⟨_, rfl⟩
              | none => exact ⟨_, rfl⟩
  · intro d h1 h2 h3 h4
    show (match parse_legacy_config_with_mysql d with
      | some config => Except.ok (config, none)
      | none =>
        match deserOrganized d with
        | some organized => Except.ok (from_organized_config organized, none)
        | none =>
          match deserPersistent d with
          | some persistent => Except.ok (from_persistent_config persistent, none)
          | none =>
            if persistentMissingProcess d then
              match migrate_legacy_config d with
              | some (config, written) => Except.ok (config, some written)
              | none => Except.ok (DorisConfig.default, none)
            else Except.ok (DorisConfig.default, none))
      = Except.ok ((DorisConfig.default : DorisConfig), (none : Option TomlDoc))
    simp only [h1, h2, h3, h4, ite_self]

/-- A document that no known schema shape accepts (every section absent). -/
def c7EmptyDoc : TomlDoc := ⟨none, none, none, none, none, none, none, none, none⟩

theorem c7_loader_total_witness :
    (∃ v, load_persisted_config true .notToml = .ok v)
      ∧ load_persisted_config false .notToml
          = .error (.ConfigError "Could not determine user home directory for config path")
      ∧ load_persisted_config true .missing = .ok (DorisConfig.default, none)
      ∧ load_persisted_config true .unreadable = .ok (DorisConfig.default, none)
      ∧ load_persisted_config true .notToml = .ok (DorisConfig.default, none)
      ∧ load_persisted_config true (.toml c7EmptyDoc) = .ok (DorisConfig.default, none) := by
  obtain ⟨e1, e2, e3, e4, e5, e6⟩ := c7_loader_total .notToml
  exact ⟨e1, e2, e3, e4, e5, e6 c7EmptyDoc rfl rfl rfl rfl⟩

/-! ### process_detector.rs and mod.rs: detection and reconciliation -/

/-- `ProcessDetectionResult` from process_detector.rs. -/
structure ProcessDetectionResult where
  pid : Nat
  command : String
  environment : Environment
  doris_home : Path
  java_home : Path
deriving DecidableEq, Repr

/-- The external facts consumed during one reconciliation pass: the outcomes
of `detect_be_process_detailed` / `detect_fe_process_detailed`, the `kill -0`
liveness probe, the outcomes of `parse_config_from_path` and of
`parse_be_config`/`parse_fe_config`, the persisted record (already defaulted
by `unwrap_or_default`), and the current time. -/
structure World where
  beDetect : Option ProcessDetectionResult
  feDetect : Option ProcessDetectionResult
  alive : Nat → Bool
  parseConf : Environment → Path → Option DorisConfig
  roleParse : Environment → Option DorisConfig
  persisted : DorisConfig
  now : Nat

/-- `detect_all_processes`: BE first, then FE; error when neither is found. -/
def detect_all_processes (w : World) : Option (List ProcessDetectionResult) :=
  let processes := w.beDetect.toList ++ w.feDetect.toList
  if processes.isEmpty then none else some processes

/-- `detect_current_process`: the first detected process. -/
def detect_current_process (w : World) : Option ProcessDetectionResult :=
  (detect_all_processes w).bind List.head?

/-- `detect_environment`: never an error, `Unknown` when nothing is found. -/
def detect_environment (w : World) : Environment :=
  match detect_current_process w with
  | some r => r.environment
  | none => .Unknown

/-- `DorisConfig::is_process_valid`: liveness of the recorded pid, false when
no pid is recorded. -/
def is_process_valid (alive : Nat → Bool) (c : DorisConfig) : Bool :=
  match c.process_pid with
  | some pid => alive pid
  | none => false

/-- `DorisConfig::get_valid_pid`. -/
def get_valid_pid (alive : Nat → Bool) (c : DorisConfig) : Option Nat :=
  c.process_pid.filter (fun _ => is_process_valid alive c)

/-- `clean_process_info` from mod.rs. -/
def clean_process_info (c : DorisConfig) : DorisConfig :=
  { c with
    process_pid := none
    process_command := none
    last_detected := none
    fe_process_pid := none
    fe_process_command := none
    fe_install_dir := none
    be_process_pid := none
    be_process_command := none
    be_install_dir := none }

/-- The FE block of `detect_mixed_deployment`: record the first FE process and,
when the record's environment is not already FE, refresh the FE port fields
from the parsed fe.conf (when parseable). -/
def dmdFeStep (w : World) (cfg : DorisConfig) (fes : List ProcessDetectionResult) : DorisConfig :=
  match fes.head? with
  | some fe =>
    let cfg :=
      { cfg with
        fe_process_pid := some fe.pid
        fe_process_command := some fe.command
        fe_install_dir := some fe.doris_home }
    if cfg.environment ≠ .FE then
      match w.parseConf .FE fe.doris_home with
      | some feCfg =>
        { cfg with
          http_port := feCfg.http_port
          rpc_port := feCfg.rpc_port
          query_port := feCfg.query_port
          edit_log_port := feCfg.edit_log_port
          cloud_http_port := feCfg.cloud_http_port
          meta_dir := feCfg.meta_dir }
      | none => cfg
    else cfg
  | none => cfg

/-- The BE block of `detect_mixed_deployment`. -/
def dmdBeStep (w : World) (cfg : DorisConfig) (bes : List ProcessDetectionResult) : DorisConfig :=
  match bes.head? with
  | some be =>
    let cfg :=
      { cfg with
        be_process_pid := some be.pid
        be_process_command := some be.command
        be_install_dir := some be.doris_home }
    if cfg.environment ≠ .BE then
      match w.parseConf .BE be.doris_home with
      | some beCfg =>
        { cfg with
          be_port := beCfg.be_port
          brpc_port := beCfg.brpc_port
          webserver_port := beCfg.webserver_port
          heartbeat_service_port := beCfg.heartbeat_service_port }
      | none => cfg
    else cfg
  | none => cfg

/-- `detect_mixed_deployment`: propagates the detect-all error; otherwise
updates the record (FE block first, then BE block) exactly when both roles
are present. -/
def detect_mixed_deployment (w : World) (cfg : DorisConfig) : Option (DorisConfig × Bool) :=
  match detect_all_processes w with
  | none => none
  | some procs =>
    let fes := procs.filter (fun p => decide (p.environment = .FE))
    let bes := procs.filter (fun p => decide (p.environment = .BE))
    if !fes.isEmpty && !bes.isEmpty then
      some (dmdBeStep w (dmdFeStep w cfg fes) bes, true)
    else some (cfg, false)

/-- `let _ = update_mixed_deployment(&mut config)`: the record is unchanged
when mixed detection errors out. -/
def dmdApply (w : World) (cfg : DorisConfig) : DorisConfig :=
  match detect_mixed_deployment w cfg with
  | some (c, _) => c
  | none => cfg

/-- `needs_config_update` from mod.rs. -/
def needs_config_update (alive : Nat → Bool) (c : DorisConfig)
    (p : ProcessDetectionResult) : Bool :=
  decide (c.process_pid ≠ some p.pid) || decide (c.environment ≠ p.environment)
    || decide (c.install_dir ≠ p.doris_home) || decide (c.jdk_path ≠ p.java_home)
    || !(is_process_valid alive c)

/-- `update_config_from_process`: overwrite process fields, re-derive paths,
and refresh the role ports from the role config file when it parses. -/
def update_config_from_process (w : World) (c : DorisConfig)
    (p : ProcessDetectionResult) : DorisConfig :=
  let c :=
    { c with
      process_pid := some p.pid
      process_command := some p.command
      last_detected := some w.now
      environment := p.environment
      install_dir := p.doris_home
      jdk_path := p.java_home
      conf_dir := pathJoin p.doris_home "conf"
      log_dir := pathJoin p.doris_home "log" }
  match w.parseConf p.environment p.doris_home with
  | some parsed =>
    match p.environment with
    | .BE =>
      { c with
        be_port := parsed.be_port
        brpc_port := parsed.brpc_port
        webserver_port := parsed.webserver_port
        heartbeat_service_port := parsed.heartbeat_service_port }
    | .FE =>
      { c with
        http_port := parsed.http_port
        rpc_port := parsed.rpc_port
        query_port := parsed.query_port
        edit_log_port := parsed.edit_log_port
        cloud_http_port := parsed.cloud_http_port
        meta_dir := parsed.meta_dir }
    | _ => c
  | none => c

/-- `parse_env_specific_config`: role parse result with fallback to default.
The `Mixed` variant does not exist in the mod.rs enum and is unreachable. -/
def parse_env_specific_config (w : World) (env : Environment) : DorisConfig :=
  match env with
  | .Unknown => DorisConfig.default
  | .Mixed => DorisConfig.default
  | .BE => (w.roleParse .BE).getD DorisConfig.default
  | .FE => (w.roleParse .FE).getD DorisConfig.default

/-- `fallback_load_config`: environment-only detection, then persist.  The
pair's second component is the list of records persisted. -/
def fallback_load_config (w : World) : DorisConfig × List DorisConfig :=
  let env := detect_environment w
  let config := { parse_env_specific_config w env with environment := env }
  (config, [config])

/-- `load_config` from mod.rs.  Returns the resulting record together with
the list of records handed to `persist_configuration`, in order. -/
def load_config (w : World) : DorisConfig × List DorisConfig :=
  let config := w.persisted
  match detect_current_process w with
  | some current =>
    if needs_config_update w.alive config current then
      let config := dmdApply w (update_config_from_process w config current)
      (config, [config])
    else (dmdApply w config, [])
  | none =>
    let cleaned :=
      if config.process_pid.isSome && !is_process_valid w.alive config then
        some (clean_process_info config)
      else none
    let config := cleaned.getD config
    let writes := match cleaned with | some c => [c] | none => []
    if config.environment = .Unknown then
      let fb := fallback_load_config w
      (fb.1, writes ++ fb.2)
    else (config, writes)

/-- Claim C9: `get_valid_pid` returns `some pid` exactly when `process_pid`
is `some pid` and the liveness probe succeeds for that pid; in particular it
returns `none` when `process_pid` is absent, and it never returns a pid other
than the recorded one. -/
theorem c9_get_valid_pid (alive : Nat → Bool) (c : DorisConfig) (p : Nat) :
    (get_valid_pid alive c = some p ↔ (c.process_pid = some p ∧ alive p = true))
      ∧ (c.process_pid = none → get_valid_pid alive c = none) := by
  unfold get_valid_pid is_process_valid
  cases h : c.process_pid with
  | none => simp [Option.filter]
  | some q =>
    refine ⟨?_, by simp⟩
    simp only [Option.filter]
    by_cases haq : alive q = true
    · rw [if_pos haq]
      constructor
      · intro h2
        refine ⟨h2, ?_⟩
        cases h2
        exact haq
      · intro h2
        exact h2.1
    · rw [if_neg haq]
      constructor
      · intro h2
        exact absurd h2 (by simp)
      · rintro ⟨h2, h3⟩
        injection h2 with h4
        subst h4
        exact absurd h3 haq

def c9Cfg : DorisConfig := { DorisConfig.default with process_pid := some 7 }

theorem c9_get_valid_pid_witness :
    (get_valid_pid (fun _ => true) c9Cfg = some 7
        ↔ (c9Cfg.process_pid = some 7 ∧ (fun _ : Nat => true) 7 = true))
      ∧ (c9Cfg.process_pid = none → get_valid_pid (fun _ => true) c9Cfg = none) :=
  c9_get_valid_pid (fun _ => true) c9Cfg 7

theorem dmdFeStep_primary (w : World) (c : DorisConfig) (fes : List ProcessDetectionResult) :
    (dmdFeStep w c fes).process_pid = c.process_pid
      ∧ (dmdFeStep w c fes).process_command = c.process_command
      ∧ (dmdFeStep w c fes).last_detected = c.last_detected
      ∧ (dmdFeStep w c fes).environment = c.environment
      ∧ (dmdFeStep w c fes).install_dir = c.install_dir
      ∧ (dmdFeStep w c fes).conf_dir = c.conf_dir
      ∧ (dmdFeStep w c fes).log_dir = c.log_dir
      ∧ (dmdFeStep w c fes).jdk_path = c.jdk_path := by
  unfold dmdFeStep
  cases hh : fes.head? with
  | none => exact ⟨rfl, rfl, rfl, rfl, rfl, rfl, rfl, rfl⟩
  | some fe =>
    dsimp only
    split
    all_goals try exact ⟨rfl, rfl, rfl, rfl, rfl, rfl, rfl, rfl⟩
    all_goals split <;> exact ⟨rfl, rfl, rfl, rfl, rfl, rfl, rfl, rfl⟩

theorem dmdBeStep_primary (w : World) (c : DorisConfig) (bes : List ProcessDetectionResult) :
    (dmdBeStep w c bes).process_pid = c.process_pid
      ∧ (dmdBeStep w c bes).process_command = c.process_command
      ∧ (dmdBeStep w c bes).last_detected = c.last_detected
      ∧ (dmdBeStep w c bes).environment = c.environment
      ∧ (dmdBeStep w c bes).install_dir = c.install_dir
      ∧ (dmdBeStep w c bes).conf_dir = c.conf_dir
      ∧ (dmdBeStep w c bes).log_dir = c.log_dir
      ∧ (dmdBeStep w c bes).jdk_path = c.jdk_path := by
  unfold dmdBeStep
  cases hh : bes.head? with
  | none => exact ⟨rfl, rfl, rfl, rfl, rfl, rfl, rfl, rfl⟩
  | some be =>
    dsimp only
    split
    all_goals try exact ⟨rfl, rfl, rfl, rfl, rfl, rfl, rfl, rfl⟩
    all_goals split <;> exact ⟨rfl, rfl, rfl, rfl, rfl, rfl, rfl, rfl⟩

theorem dmdApply_primary (w : World) (c : DorisConfig) :
    (dmdApply w c).process_pid = c.process_pid
      ∧ (dmdApply w c).process_command = c.process_command
      ∧ (dmdApply w c).last_detected = c.last_detected
      ∧ (dmdApply w c).environment = c.environment
      ∧ (dmdApply w c).install_dir = c.install_dir
      ∧ (dmdApply w c).conf_dir = c.conf_dir
      ∧ (dmdApply w c).log_dir = c.log_dir
      ∧ (dmdApply w c).jdk_path = c.jdk_path := by
  unfold dmdApply detect_mixed_deployment
  cases hall : detect_all_processes w with
  | none => exact ⟨rfl, rfl, rfl, rfl, rfl, rfl, rfl, rfl⟩
  | some procs =>
    dsimp only
    by_cases hcond :
        (!(procs.filter (fun p => decide (p.environment = .FE))).isEmpty
          && !(procs.filter (fun p => decide (p.environment = .BE))).isEmpty) = true
    · rw [if_pos hcond]
      obtain ⟨f1, f2, f3, f4, f5, f6, f7, f8⟩ :=
        dmdFeStep_primary w c (procs.filter (fun p => decide (p.environment = .FE)))
      obtain ⟨b1, b2, b3, b4, b5, b6, b7, b8⟩ :=
        dmdBeStep_primary w (dmdFeStep w c (procs.filter (fun p => decide (p.environment = .FE))))
          (procs.filter (fun p => decide (p.environment = .BE)))
      exact ⟨b1.trans f1, b2.trans f2, b3.trans f3, b4.trans f4, b5.trans f5,
        b6.trans f6, b7.trans f7, b8.trans f8⟩
    · rw [if_neg hcond]
      exact ⟨rfl, rfl, rfl, rfl, rfl, rfl, rfl, rfl⟩

/-- Claim C4: when live detection finds no role process and the persisted pid
is dead, the reconciler cleans all process-identity fields (primary and both
fe_/be_ bookkeeping sets), persists the cleaned record, and leaves every path,
port and network field unchanged. -/
theorem c4_liveness_override (w : World) (pid : Nat)
    (hbe : w.beDetect = none) (hfe : w.feDetect = none)
    (hpid : w.persisted.process_pid = some pid)
    (hdead : w.alive pid = false)
    (henv : w.persisted.environment ≠ .Unknown) :
    load_config w = (clean_process_info w.persisted, [clean_process_info w.persisted])
      ∧ (clean_process_info w.persisted).process_pid = none
      ∧ (clean_process_info w.persisted).process_command = none
      ∧ (clean_process_info w.persisted).last_detected = none
      ∧ (clean_process_info w.persisted).fe_process_pid = none
      ∧ (clean_process_info w.persisted).fe_process_command = none
      ∧ (clean_process_info w.persisted).fe_install_dir = none
      ∧ (clean_process_info w.persisted).be_process_pid = none
      ∧ (clean_process_info w.persisted).be_process_command = none
      ∧ (clean_process_info w.persisted).be_install_dir = none
      ∧ (clean_process_info w.persisted).environment = w.persisted.environment
      ∧ (clean_process_info w.persisted).install_dir = w.persisted.install_dir
      ∧ (clean_process_info w.persisted).conf_dir = w.persisted.conf_dir
      ∧ (clean_process_info w.persisted).log_dir = w.persisted.log_dir
      ∧ (clean_process_info w.persisted).jdk_path = w.persisted.jdk_path
      ∧ (clean_process_info w.persisted).output_dir = w.persisted.output_dir
      ∧ (clean_process_info w.persisted).be_port = w.persisted.be_port
      ∧ (clean_process_info w.persisted).brpc_port = w.persisted.brpc_port
      ∧ (clean_process_info w.persisted).heartbeat_service_port
          = w.persisted.heartbeat_service_port
      ∧ (clean_process_info w.persisted).webserver_port = w.persisted.webserver_port
      ∧ (clean_process_info w.persisted).http_port = w.persisted.http_port
      ∧ (clean_process_info w.persisted).rpc_port = w.persisted.rpc_port
      ∧ (clean_process_info w.persisted).query_port = w.persisted.query_port
      ∧ (clean_process_info w.persisted).edit_log_port = w.persisted.edit_log_port
      ∧ (clean_process_info w.persisted).cloud_http_port = w.persisted.cloud_http_port
      ∧ (clean_process_info w.persisted).meta_dir = w.persisted.meta_dir
      ∧ (clean_process_info w.persisted).priority_networks = w.persisted.priority_networks
      ∧ (clean_process_info w.persisted).meta_service_endpoint
          = w.persisted.meta_service_endpoint := by
  have hdet : detect_current_process w = none := by
    simp [detect_current_process, detect_all_processes, hbe, hfe]
  have hvalid : is_process_valid w.alive w.persisted = false := by
    simp [is_process_valid, hpid, hdead]
  refine ⟨?_, rfl, rfl, rfl, rfl, rfl, rfl, rfl, rfl, rfl, rfl, rfl, rfl, rfl, rfl, rfl,
    rfl, rfl, rfl, rfl, rfl, rfl, rfl, rfl, rfl, rfl, rfl, rfl⟩
  simp only [load_config, hdet]
  have hcl : (if (w.persisted.process_pid.isSome && !is_process_valid w.alive w.persisted) = true
        then some (clean_process_info w.persisted) else none)
      = some (clean_process_info w.persisted) :=
    if_pos (by simp [hpid, hvalid])
  rw [hcl]
  simp only [Option.getD_some]
  rw [if_neg (show ¬((clean_process_info w.persisted).environment = Environment.Unknown) from henv)]

def c4World : World :=
  { beDetect := none
    feDetect := none
    alive := fun _ => false
    parseConf := fun _ _ => none
    roleParse := fun _ => none
    persisted :=
      { DorisConfig.default with
        environment := .FE
        process_pid := some 4242
        process_command := some "java DorisFE"
        last_detected := some 17
        fe_process_pid := some 4242
        http_port := some 8030
        be_port := some 9060 }
    now := 99 }

theorem c4_liveness_override_witness :
    load_config c4World
        = (clean_process_info c4World.persisted, [clean_process_info c4World.persisted])
      ∧ (clean_process_info c4World.persisted).process_pid = none
      ∧ (clean_process_info c4World.persisted).process_command = none
      ∧ (clean_process_info c4World.persisted).last_detected = none
      ∧ (clean_process_info c4World.persisted).fe_process_pid = none
      ∧ (clean_process_info c4World.persisted).fe_process_command = none
      ∧ (clean_process_info c4World.persisted).fe_install_dir = none
      ∧ (clean_process_info c4World.persisted).be_process_pid = none
      ∧ (clean_process_info c4World.persisted).be_process_command = none
      ∧ (clean_process_info c4World.persisted).be_install_dir = none
      ∧ (clean_process_info c4World.persisted).environment = c4World.persisted.environment
      ∧ (clean_process_info c4World.persisted).install_dir = c4World.persisted.install_dir
      ∧ (clean_process_info c4World.persisted).conf_dir = c4World.persisted.conf_dir
      ∧ (clean_process_info c4World.persisted).log_dir = c4World.persisted.log_dir
      ∧ (clean_process_info c4World.persisted).jdk_path = c4World.persisted.jdk_path
      ∧ (clean_process_info c4World.persisted).output_dir = c4World.persisted.output_dir
      ∧ (clean_process_info c4World.persisted).be_port = c4World.persisted.be_port
      ∧ (clean_process_info c4World.persisted).brpc_port = c4World.persisted.brpc_port
      ∧ (clean_process_info c4World.persisted).heartbeat_service_port
          = c4World.persisted.heartbeat_service_port
      ∧ (clean_process_info c4World.persisted).webserver_port
          = c4World.persisted.webserver_port
      ∧ (clean_process_info c4World.persisted).http_port = c4World.persisted.http_port
      ∧ (clean_process_info c4World.persisted).rpc_port = c4World.persisted.rpc_port
      ∧ (clean_process_info c4World.persisted).query_port = c4World.persisted.query_port
      ∧ (clean_process_info c4World.persisted).edit_log_port = c4World.persisted.edit_log_port
      ∧ (clean_process_info c4World.persisted).cloud_http_port
          = c4World.persisted.cloud_http_port
      ∧ (clean_process_info c4World.persisted).meta_dir = c4World.persisted.meta_dir
      ∧ (clean_process_info c4World.persisted).priority_networks
          = c4World.persisted.priority_networks
      ∧ (clean_process_info c4World.persisted).meta_service_endpoint
          = c4World.persisted.meta_service_endpoint :=
  c4_liveness_override c4World 4242 rfl rfl rfl rfl (by decide)

/-- Claim C6: with a freshly probed process, the reconciler takes the update
path (overwrite process fields, re-derive paths, re-parse the role config,
run mixed detection, persist) exactly when the persisted pid, environment,
install dir or jdk path differs from the probe or the persisted pid fails the
liveness check; otherwise it takes the keep path, which persists nothing and
leaves every primary process/path field untouched. -/
theorem c6_update_iff (w : World) (p : ProcessDetectionResult)
    (hdet : detect_current_process w = some p) :
    (needs_config_update w.alive w.persisted p = true
        ↔ (w.persisted.process_pid ≠ some p.pid
            ∨ w.persisted.environment ≠ p.environment
            ∨ w.persisted.install_dir ≠ p.doris_home
            ∨ w.persisted.jdk_path ≠ p.java_home
            ∨ is_process_valid w.alive w.persisted = false))
      ∧ (needs_config_update w.alive w.persisted p = true →
          load_config w = (dmdApply w (update_config_from_process w w.persisted p),
            [dmdApply w (update_config_from_process w w.persisted p)]))
      ∧ (needs_config_update w.alive w.persisted p = false →
          load_config w = (dmdApply w w.persisted, [])
            ∧ (dmdApply w w.persisted).process_pid = w.persisted.process_pid
            ∧ (dmdApply w w.persisted).process_command = w.persisted.process_command
            ∧ (dmdApply w w.persisted).last_detected = w.persisted.last_detected
            ∧ (dmdApply w w.persisted).environment = w.persisted.environment
            ∧ (dmdApply w w.persisted).install_dir = w.persisted.install_dir
            ∧ (dmdApply w w.persisted).conf_dir = w.persisted.conf_dir
            ∧ (dmdApply w w.persisted).log_dir = w.persisted.log_dir
            ∧ (dmdApply w w.persisted).jdk_path = w.persisted.jdk_path) := by
  refine ⟨?_, ?_, ?_⟩
  · simp only [needs_config_update, Bool.or_eq_true, decide_eq_true_eq, Bool.not_eq_true']
    tauto
  · intro hup
    simp only [load_config, hdet]
    rw [if_pos hup]
  · intro hkeep
    obtain ⟨a1, a2, a3, a4, a5, a6, a7, a8⟩ := dmdApply_primary w w.persisted
    refine ⟨?_, a1, a2, a3, a4, a5, a6, a7, a8⟩
    simp only [load_config, hdet]
    rw [if_neg (by rw [hkeep]; exact Bool.false_ne_true)]

def c6Probe : ProcessDetectionResult :=
  ⟨202, "doris_be --daemon", .BE, "/opt/be", "/opt/jdk"⟩

def c6World : World :=
  { beDetect := some c6Probe
    feDetect := none
    alive := fun _ => true
    parseConf := fun _ _ => none
    roleParse := fun _ => none
    persisted := { DorisConfig.default with environment := .BE, process_pid := some 1 }
    now := 3 }

theorem c6_update_iff_witness :
    (needs_config_update c6World.alive c6World.persisted c6Probe = true
        ↔ (c6World.persisted.process_pid ≠ some c6Probe.pid
            ∨ c6World.persisted.environment ≠ c6Probe.environment
            ∨ c6World.persisted.install_dir ≠ c6Probe.doris_home
            ∨ c6World.persisted.jdk_path ≠ c6Probe.java_home
            ∨ is_process_valid c6World.alive c6World.persisted = false))
      ∧ (needs_config_update c6World.alive c6World.persisted c6Probe = true →
          load_config c6World
            = (dmdApply c6World (update_config_from_process c6World c6World.persisted c6Probe),
              [dmdApply c6World (update_config_from_process c6World c6World.persisted c6Probe)]))
      ∧ (needs_config_update c6World.alive c6World.persisted c6Probe = false →
          load_config c6World = (dmdApply c6World c6World.persisted, [])
            ∧ (dmdApply c6World c6World.persisted).process_pid
                = c6World.persisted.process_pid
            ∧ (dmdApply c6World c6World.persisted).process_command
                = c6World.persisted.process_command
            ∧ (dmdApply c6World c6World.persisted).last_detected
                = c6World.persisted.last_detected
            ∧ (dmdApply c6World c6World.persisted).environment
                = c6World.persisted.environment
            ∧ (dmdApply c6World c6World.persisted).install_dir
                = c6World.persisted.install_dir
            ∧ (dmdApply c6World c6World.persisted).conf_dir = c6World.persisted.conf_dir
            ∧ (dmdApply c6World c6World.persisted).log_dir = c6World.persisted.log_dir
            ∧ (dmdApply c6World c6World.persisted).jdk_path = c6World.persisted.jdk_path) :=
  c6_update_iff c6World c6Probe rfl

/-- Claim C3: when both roles are detected and the record is currently in the
Frontend environment, mixed detection fills the BE process bookkeeping and the
BE port fields (from the parsed be.conf) and leaves every Frontend-namespace
field — http/rpc/query/edit-log/cloud-http ports and meta_dir — unchanged. -/
theorem c3_mixed_fe_frame (w : World) (fe be : ProcessDetectionResult)
    (beCfg cfg : DorisConfig)
    (hfe : w.feDetect = some fe) (hbe : w.beDetect = some be)
    (hfeEnv : fe.environment = .FE) (hbeEnv : be.environment = .BE)
    (hcfg : cfg.environment = .FE)
    (hpar : w.parseConf .BE be.doris_home = some beCfg) :
    ∃ c, detect_mixed_deployment w cfg = some (c, true)
      ∧ c.be_process_pid = some be.pid
      ∧ c.be_process_command = some be.command
      ∧ c.be_install_dir = some be.doris_home
      ∧ c.be_port = beCfg.be_port
      ∧ c.brpc_port = beCfg.brpc_port
      ∧ c.webserver_port = beCfg.webserver_port
      ∧ c.heartbeat_service_port = beCfg.heartbeat_service_port
      ∧ c.http_port = cfg.http_port
      ∧ c.rpc_port = cfg.rpc_port
      ∧ c.query_port = cfg.query_port
      ∧ c.edit_log_port = cfg.edit_log_port
      ∧ c.cloud_http_port = cfg.cloud_http_port
      ∧ c.meta_dir = cfg.meta_dir := by
  have hall : detect_all_processes w = some [be, fe] := by
    simp [detect_all_processes, hbe, hfe]
  refine ⟨dmdBeStep w (dmdFeStep w cfg [fe]) [be],
    ?_, ?_, ?_, ?_, ?_, ?_, ?_, ?_, ?_, ?_, ?_, ?_, ?_, ?_⟩
  · simp [detect_mixed_deployment, hall, hbeEnv, hfeEnv]
  all_goals simp [dmdBeStep, dmdFeStep, hcfg, hpar]

def c3FE : ProcessDetectionResult := ⟨101, "java DorisFE", .FE, "/opt/fe", "/opt/jdk"⟩

def c3BE : ProcessDetectionResult := ⟨202, "doris_be --daemon", .BE, "/opt/be", "/opt/jdk"⟩

def c3BeParsed : DorisConfig :=
  { DorisConfig.default with be_port := some 9060, webserver_port := some 8040 }

def c3World : World :=
  { beDetect := some c3BE
    feDetect := some c3FE
    alive := fun _ => true
    parseConf := fun e _ => if e = .BE then some c3BeParsed else none
    roleParse := fun _ => none
    persisted := DorisConfig.default
    now := 0 }

def c3Cfg : DorisConfig :=
  { DorisConfig.default with environment := .FE, http_port := some 8030, meta_dir := some "/opt/fe/meta" }

theorem c3_mixed_fe_frame_witness :
    ∃ c, detect_mixed_deployment c3World c3Cfg = some (c, true)
      ∧ c.be_process_pid = some c3BE.pid
      ∧ c.be_process_command = some c3BE.command
      ∧ c.be_install_dir = some c3BE.doris_home
      ∧ c.be_port = c3BeParsed.be_port
      ∧ c.brpc_port = c3BeParsed.brpc_port
      ∧ c.webserver_port = c3BeParsed.webserver_port
      ∧ c.heartbeat_service_port = c3BeParsed.heartbeat_service_port
      ∧ c.http_port = c3Cfg.http_port
      ∧ c.rpc_port = c3Cfg.rpc_port
      ∧ c.query_port = c3Cfg.query_port
      ∧ c.edit_log_port = c3Cfg.edit_log_port
      ∧ c.cloud_http_port = c3Cfg.cloud_http_port
      ∧ c.meta_dir = c3Cfg.meta_dir :=
  c3_mixed_fe_frame c3World c3FE c3BE c3BeParsed c3Cfg rfl rfl rfl rfl rfl rfl

/-! ### Pid extraction (regex_utils.rs / process_detector.rs)

The helpers below re-state the core string operations (trim, prefix test,
line split) by structural recursion over the character list, so that concrete
counterexamples evaluate inside the kernel; they agree with the Rust std
semantics on the ASCII data these functions consume. -/

/-- Rust `str::trim()`. -/
def strTrim (s : String) : String :=
  String.mk (((s.toList.dropWhile (fun c => c.isWhitespace)).reverse.dropWhile
    (fun c => c.isWhitespace)).reverse)

/-- Rust `str::starts_with`. -/
def strStartsWith (s pre : String) : Bool := pre.toList.isPrefixOf s.toList

/-- Rust `str::is_empty`. -/
def strIsEmpty (s : String) : Bool := s.toList.isEmpty

/-- Helper for `linesOf`: split a character list at newlines. -/
def splitNl : List Char → List Char → List String
  | [], cur => [String.mk cur.reverse]
  | '\n' :: rest, cur => String.mk cur.reverse :: splitNl rest []
  | c :: rest, cur => splitNl rest (c :: cur)

/-- Rust `str::lines()`.  Command output reaching these functions is always
pre-trimmed by `execute_command`, so trailing newlines never occur at the
call sites. -/
def linesOf (s : String) : List String :=
  if strIsEmpty s then [] else splitNl s.toList []

/-- Match of the anchored pattern `^(\d+)\s+DorisFE` against one line: a
leading digit run, a whitespace run, then the literal class name; the
captured digit run must parse as u32. -/
def matchJpsPid (line : String) : Option Nat :=
  let cs := line.toList
  let ds := cs.takeWhile (fun c => c.isDigit)
  if ds.isEmpty then none
  else
    let rest := cs.drop ds.length
    let ws := rest.takeWhile (fun c => c.isWhitespace)
    if ws.isEmpty then none
    else
      let rest2 := rest.drop ws.length
      if ("DorisFE".toList).isPrefixOf rest2 then parseUIntLt (2 ^ 32) (String.mk ds)
      else none

/-- Match of the anchored pattern `^\S+\s+(\d+)` against one line: a leading
non-space run, a whitespace run, then the captured digit run, parsed as u32. -/
def matchPsPid (line : String) : Option Nat :=
  let cs := line.toList
  let w1 := cs.takeWhile (fun c => !c.isWhitespace)
  if w1.isEmpty then none
  else
    let rest := cs.drop w1.length
    let ws := rest.takeWhile (fun c => c.isWhitespace)
    if ws.isEmpty then none
    else
      let ds := (rest.drop ws.length).takeWhile (fun c => c.isDigit)
      if ds.isEmpty then none else parseUIntLt (2 ^ 32) (String.mk ds)

/-- Match of the user/pid pattern `^(\S+)\s+(\d+)` used for the current-user
tie-break: returns the user column together with the pid digit run. -/
def matchUserPid (line : String) : Option (String × String) :=
  let cs := line.toList
  let w1 := cs.takeWhile (fun c => !c.isWhitespace)
  if w1.isEmpty then none
  else
    let rest := cs.drop w1.length
    let ws := rest.takeWhile (fun c => c.isWhitespace)
    if ws.isEmpty then none
    else
      let ds := (rest.drop ws.length).takeWhile (fun c => c.isDigit)
      if ds.isEmpty then none else some (String.mk w1, String.mk ds)

/-- `extract_pid_from_output` with `first_only = true`: apply the pattern to
the first line only. -/
def extractPidFirst (pat : String → Option Nat) (output : String) : Option Nat :=
  (linesOf output).head?.bind pat

/-- The line loop of `extract_pid_from_output` with `first_only = false`:
return the pid of the first line whose user column starts with (or equals)
the current user and whose pid column parses as u32. -/
def userPrefLoop (currentUser : String) : List String → Option Nat
  | [] => none
  | l :: rest =>
    match matchUserPid l with
    | some (user, ds) =>
      if strStartsWith user currentUser || user == currentUser then
        match parseUIntLt (2 ^ 32) ds with
        | some pid => some pid
        | none => userPrefLoop currentUser rest
      else userPrefLoop currentUser rest
    | none => userPrefLoop currentUser rest

/-- `extract_pid_from_output` with `first_only = false`, instantiated at the
storage-role pattern `^\S+\s+(\d+)` (its only such call site): the user-
preference loop, then the fallback on the first line. -/
def extract_pid_from_output_be (currentUser : String) (output : String) : Option Nat :=
  match userPrefLoop currentUser (linesOf output) with
  | some pid => some pid
  | none => (linesOf output).head?.bind matchPsPid

/-- Refinement candidate following claim C8 verbatim: prefer the first line
whose OS user column EQUALS the current user; with no such line, fall back to
the pid of the first line. -/
def claimedExtractPidBe (currentUser : String) (output : String) : Option Nat :=
  match (linesOf output).findSome? (fun l =>
      match matchUserPid l with
      | some (user, ds) => if user = currentUser then parseUIntLt (2 ^ 32) ds else none
      | none => none) with
  | some pid => some pid
  | none => (linesOf output).head?.bind matchPsPid

/-- The code's actual tie-break, stated declaratively: prefer the first line
whose user column starts with (or equals) the current user. -/
def prefixExtractPidBe (currentUser : String) (output : String) : Option Nat :=
  match (linesOf output).findSome? (fun l =>
      match matchUserPid l with
      | some (user, ds) =>
        if strStartsWith user currentUser || user == currentUser then parseUIntLt (2 ^ 32) ds
        else none
      | none => none) with
  | some pid => some pid
  | none => (linesOf output).head?.bind matchPsPid

/-- Claim C8 as stated is false: with current user `bob` and two matching
lines for users `bobby` (pid 111) and `bob` (pid 222), the code returns 111 —
the `starts_with` tie-break accepts the *bobby* line — while the claimed
equality tie-break returns 222. -/
theorem c8_counterexample :
    extract_pid_from_output_be "bob" "bobby 111\nbob 222" = some 111
      ∧ claimedExtractPidBe "bob" "bobby 111\nbob 222" = some 222
      ∧ extract_pid_from_output_be "bob" "bobby 111\nbob 222"
          ≠ claimedExtractPidBe "bob" "bobby 111\nbob 222" :=
  ⟨rfl, rfl, fun h => absurd h (by decide)⟩

theorem userPrefLoop_eq (currentUser : String) : ∀ ls : List String,
    userPrefLoop currentUser ls
      = ls.findSome? (fun l =>
          match matchUserPid l with
          | some (user, ds) =>
            if strStartsWith user currentUser || user == currentUser then parseUIntLt (2 ^ 32) ds
            else none
          | none => none) := by
  intro ls
  induction ls with
  | nil => rfl
  | cons l rest ih =>
    rw [List.findSome?_cons]
    cases hm : matchUserPid l with
    | none =>
      simp only [userPrefLoop, hm]
      exact ih
    | some pair =>
      obtain ⟨user, ds⟩ := pair
      simp only [userPrefLoop, hm]
      by_cases hu : (strStartsWith user currentUser || user == currentUser) = true
      · rw [if_pos hu, if_pos hu]
        cases hp : parseUIntLt (2 ^ 32) ds with
        | none => exact ih
        | some pid => rfl
      · rw [if_neg hu, if_neg hu]
        exact ih

/-- Claim C8, amended: the storage-role pid extraction returns the pid of the
first line whose user column starts with (or equals) the current user, and
otherwise the pid extracted from the first line by the positional pattern. -/
theorem c8_user_tiebreak_amended (currentUser output : String) :
    extract_pid_from_output_be currentUser output = prefixExtractPidBe currentUser output := by
  unfold extract_pid_from_output_be prefixExtractPidBe
  rw [userPrefLoop_eq]

/-! ### Claim C5: the coordination-role (FE) pid lookup chain -/

def feCommandJps : String := "jps | grep DorisFE"

def feCommandPs : String := "ps -ef | grep DorisFE | grep -v grep"

def feCommandHeuristic : String :=
  "ps -ef | grep \x27doris.*fe\x27 | grep java | grep -v grep"

/-- The three FE lookup commands of `get_pid_by_env`, in source order. -/
def feCommands : List String := [feCommandJps, feCommandPs, feCommandHeuristic]

/-- The pid pattern chosen per command: the jps pattern for the dedicated
lister, the positional ps pattern otherwise. -/
def fePatternFor (cmd : String) : String → Option Nat :=
  if strStartsWith cmd "jps" then matchJpsPid else matchPsPid

/-- The FE branch loop of `get_pid_by_env`: try each command in order; skip a
command when its execution fails, its output is blank, or no pid can be
extracted; stop at the first extracted pid.  Returns the result together with
the trace of commands actually executed. -/
def feTry (exec : String → Option String) : List String → Option Nat × List String
  | [] => (none, [])
  | cmd :: rest =>
    match exec cmd with
    | none =>
      let r := feTry exec rest
      (r.1, cmd :: r.2)
    | some out =>
      if strIsEmpty (strTrim out) then
        let r := feTry exec rest
        (r.1, cmd :: r.2)
      else
        match extractPidFirst (fePatternFor cmd) out with
        | some pid => (some pid, [cmd])
        | none =>
          let r := feTry exec rest
          (r.1, cmd :: r.2)

/-- `get_pid_by_env(Environment::FE)` with the command runner passed in;
`none` models the `ProcessNotFound` error. -/
def get_fe_pid (exec : String → Option String) : Option Nat × List String :=
  feTry exec feCommands

/-- Whether one FE command yields a pid: it executes successfully, its output
is non-blank, and the role pattern extracts a parseable pid from the first
line. -/
def cmdYieldsPid (exec : String → Option String) (cmd : String) : Option Nat :=
  match exec cmd with
  | none => none
  | some out =>
    if strIsEmpty (strTrim out) then none
    else extractPidFirst (fePatternFor cmd) out

theorem feTry_cons_eq (exec : String → Option String) (cmd : String) (rest : List String) :
    feTry exec (cmd :: rest)
      = (match exec cmd with
         | none => ((feTry exec rest).1, cmd :: (feTry exec rest).2)
         | some out =>
           if strIsEmpty (strTrim out) then ((feTry exec rest).1, cmd :: (feTry exec rest).2)
           else
             match extractPidFirst (fePatternFor cmd) out with
             | some pid => (some pid, [cmd])
             | none => ((feTry exec rest).1, cmd :: (feTry exec rest).2)) := rfl

theorem feTry_cons_none (exec : String → Option String) (cmd : String) (rest : List String)
    (h : cmdYieldsPid exec cmd = none) :
    feTry exec (cmd :: rest) = ((feTry exec rest).1, cmd :: (feTry exec rest).2) := by
  rw [feTry_cons_eq]
  unfold cmdYieldsPid at h
  cases hx : exec cmd with
  | none => rfl
  | some out =>
    rw [hx] at h
    dsimp only at h ⊢
    by_cases he : strIsEmpty (strTrim out) = true
    · rw [if_pos he]
    · rw [if_neg he] at h
      rw [if_neg he, h]

theorem feTry_cons_some (exec : String → Option String) (cmd : String) (rest : List String)
    (pid : Nat) (h : cmdYieldsPid exec cmd = some pid) :
    feTry exec (cmd :: rest) = (some pid, [cmd]) := by
  rw [feTry_cons_eq]
  unfold cmdYieldsPid at h
  cases hx : exec cmd with
  | none => rw [hx] at h; exact absurd h (by simp)
  | some out =>
    rw [hx] at h
    dsimp only at h ⊢
    by_cases he : strIsEmpty (strTrim out) = true
    · rw [if_pos he] at h
      exact absurd h (by simp)
    · rw [if_neg he] at h
      rw [if_neg he, h]

theorem feTry_spec (exec : String → Option String) : ∀ cmds : List String,
    (feTry exec cmds).1 = (cmds.filterMap (cmdYieldsPid exec)).head?
      ∧ (feTry exec cmds).2
          = cmds.take ((cmds.takeWhile (fun c => (cmdYieldsPid exec c).isNone)).length + 1) := by
  intro cmds
  induction cmds with
  | nil => exact ⟨rfl, rfl⟩
  | cons cmd rest ih =>
    obtain ⟨ih1, ih2⟩ := ih
    cases h : cmdYieldsPid exec cmd with
    | some pid =>
      rw [feTry_cons_some exec cmd rest pid h]
      constructor
      · simp [List.filterMap_cons, h]
      · simp [List.takeWhile_cons, h]
    | none =>
      rw [feTry_cons_none exec cmd rest h]
      constructor
      · simp only [List.filterMap_cons, h, ih1]
      · simp only [List.takeWhile_cons, h, Option.isNone_none, if_pos rfl, List.length_cons,
          List.take_succ_cons, ih2]
        simp

/-- An execution oracle refuting claim C5 as stated: the dedicated lister
produces NON-empty output without an extractable pid, yet the second pattern
is still tried (and succeeds). -/
def c5Exec : String → Option String := fun cmd =>
  if cmd = feCommandJps then some "nachos"
  else if cmd = feCommandPs then some "doris 4242 1 0 java DorisFE"
  else none

/-- Claim C5 as stated is false: pattern B is tried although pattern A yielded
non-empty (merely pid-free) output — the trace contains both commands while
the first command's output is not blank. -/
theorem c5_counterexample :
    get_fe_pid c5Exec = (some 4242, [feCommandJps, feCommandPs])
      ∧ c5Exec feCommandJps = some "nachos"
      ∧ strIsEmpty (strTrim "nachos") = false :=
  ⟨rfl, rfl, rfl⟩

/-- Claim C5, amended: the FE locator tries its three patterns in the fixed
source order, moving past a pattern exactly when it yields no pid (execution
failure, blank output, or unextractable output); it returns the first yielded
pid and reports not-found exactly when all three patterns yield none, and the
executed-command trace is the corresponding prefix of the pattern list. -/
theorem c5_fallback_order_amended (exec : String → Option String) :
    (get_fe_pid exec).1 = (feCommands.filterMap (cmdYieldsPid exec)).head?
      ∧ (get_fe_pid exec).2
          = feCommands.take
              ((feCommands.takeWhile (fun c => (cmdYieldsPid exec c).isNone)).length + 1) :=
  feTry_spec exec feCommands

/-! ### config.rs: the application Config and environment overrides -/

/-- The application `Config` from config.rs. -/
structure AppConfig where
  jdk_path : Path
  output_dir : Path
  timeout_seconds : Nat
  no_progress_animation : Bool
deriving DecidableEq, Repr

/-- `Config::default()`. -/
def AppConfig.default : AppConfig :=
  ⟨"/opt/jdk", "/opt/selectdb/information", 60, false⟩

/-- Rust `str::to_lowercase`, restricted to ASCII case mapping (the compared
literal is "true"). -/
def strToLower (s : String) : String :=
  String.mk (s.toList.map (fun c => c.toLower))

/-- `Config::load_from_env`: path overrides, a timeout override ignored unless
it parses as u64, and the progress-animation flag recomputed unconditionally
from the `CLOUD_CLI_NO_PROGRESS` variable. -/
def load_from_env (envv : String → Option String) (c : AppConfig) : AppConfig :=
  let c :=
    match envv "JDK_PATH" with
    | some s => { c with jdk_path := s }
    | none => c
  let c :=
    match envv "OUTPUT_DIR" with
    | some s => { c with output_dir := s }
    | none => c
  let c :=
    match envv "CLOUD_CLI_TIMEOUT" with
    | some s =>
      match parseUIntLt (2 ^ 64) s with
      | some t => { c with timeout_seconds := t }
      | none => c
    | none => c
  { c with
    no_progress_animation :=
      match envv "CLOUD_CLI_NO_PROGRESS" with
      | some v => v == "1" || strToLower v == "true"
      | none => false }

/-- `Config::new`, with the outcome of the dynamic config loader passed in
(`none` models a loader failure, replaced by the default config): loads, then
applies the environment overrides. -/
def Config_new (loaded : Option AppConfig) (envv : String → Option String) : AppConfig :=
  load_from_env envv (loaded.getD AppConfig.default)

/-- Claim C10: after `Config::new` applies environment overrides, the
progress-animation suppression flag is false whenever `CLOUD_CLI_NO_PROGRESS`
is unset or set to anything other than "1" or (case-insensitively) "true" —
regardless of the loaded value — and a `CLOUD_CLI_TIMEOUT` value that does not
parse as an integer leaves the loaded timeout unchanged. -/
theorem c10_env_overrides (loaded : Option AppConfig) (envv : String → Option String) :
    (envv "CLOUD_CLI_NO_PROGRESS" = none →
        (Config_new loaded envv).no_progress_animation = false)
      ∧ (∀ v, envv "CLOUD_CLI_NO_PROGRESS" = some v → v ≠ "1" → strToLower v ≠ "true" →
          (Config_new loaded envv).no_progress_animation = false)
      ∧ (∀ s, envv "CLOUD_CLI_TIMEOUT" = some s → parseUIntLt (2 ^ 64) s = none →
          (Config_new loaded envv).timeout_seconds
            = (loaded.getD AppConfig.default).timeout_seconds) := by
  refine ⟨?_, ?_, ?_⟩
  · intro h
    simp only [Config_new, load_from_env]
    rw [h]
  · intro v hv h1 h2
    simp only [Config_new, load_from_env]
    rw [hv]
    simp [h1, h2]
  · intro s hs hp
    have hp2 : parseUIntLt 18446744073709551616 s = none := by
      have he : (18446744073709551616 : Nat) = 2 ^ 64 := by norm_num
      rw [he]
      exact hp
    cases hj : envv "JDK_PATH" <;> cases ho : envv "OUTPUT_DIR" <;>
      simp [Config_new, load_from_env, hj, ho, hs, hp, hp2]

def c10Env : String → Option String := fun k =>
  if k = "CLOUD_CLI_NO_PROGRESS" then some "yes"
  else if k = "CLOUD_CLI_TIMEOUT" then some "soon" else none

def c10Loaded : AppConfig := ⟨"/opt/jdk", "/data/out", 42, true⟩

theorem c10_env_overrides_witness :
    (Config_new (some c10Loaded) c10Env).no_progress_animation = false
      ∧ (Config_new (some c10Loaded) c10Env).timeout_seconds
          = ((some c10Loaded).getD AppConfig.default).timeout_seconds :=
  ⟨(c10_env_overrides (some c10Loaded) c10Env).2.1 "yes" rfl (by decide) (by decide),
    (c10_env_overrides (some c10Loaded) c10Env).2.2 "soon" rfl (by decide)⟩

end CloudCli
